import Mathlib

/-!
Verification of the `django_cubrid/base.py` adapter layer.

Each definition below is a shallow embedding of a function of the source
file (or of the exact behaviour of the Python library call it makes).
Python strings are modelled as `List Char`, Python integers as `Int` or
`Nat`, raised exceptions as an explicit result type.
-/

namespace DjangoCubrid

/-! ## Placeholder rewriter (`CursorWrapper.execute`, base.py lines 60-64)

`re.sub('([^%])%s', '\\1?', query)` scans the template left to right.
At each position a match needs a non-percent character immediately
followed by the two characters percent, s; the matched three characters
are replaced by the captured character followed by a question mark and
the scan resumes after the match.  A position whose first character is a
percent can never start a match, so the scanner just moves past it. -/

def pySubMarker : List Char → List Char
  | '%' :: rest => '%' :: pySubMarker rest
  | c :: '%' :: 's' :: rest => c :: '?' :: pySubMarker rest
  | c :: rest => c :: pySubMarker rest
  | [] => []

/-- `re.sub('%%', '%', query)`: each non-overlapping occurrence of two
percent characters collapses to a single percent, scanning left to right. -/
def pySubPercent : List Char → List Char
  | '%' :: '%' :: rest => '%' :: pySubPercent rest
  | c :: rest => c :: pySubPercent rest
  | [] => []

/-- The full rewrite performed by `CursorWrapper.execute` before the query
is handed to the driver: marker substitution, then percent collapsing. -/
def cursorRewrite (query : List Char) : List Char :=
  pySubPercent (pySubMarker query)

/-- Number of host markers the first substitution replaces: occurrences of
percent-s preceded by a non-percent character that was not consumed by the
previous replacement, counted by the same left-to-right scan. -/
def countUnescapedMarkers : List Char → Nat
  | '%' :: rest => countUnescapedMarkers rest
  | _ :: '%' :: 's' :: rest => 1 + countUnescapedMarkers rest
  | _ :: rest => countUnescapedMarkers rest
  | [] => 0

/-- Number of doubled-percent pairs the second substitution collapses. -/
def countDoubledPercents : List Char → Nat
  | '%' :: '%' :: rest => 1 + countDoubledPercents rest
  | _ :: rest => countDoubledPercents rest
  | [] => 0

theorem count_qmark_pySubMarker (s : List Char) :
    (pySubMarker s).count '?' = s.count '?' + countUnescapedMarkers s := by
  induction s using pySubMarker.induct <;>
    simp_all [pySubMarker, countUnescapedMarkers, List.count_cons] <;> omega

theorem count_qmark_pySubPercent (s : List Char) :
    (pySubPercent s).count '?' = s.count '?' := by
  induction s using pySubPercent.induct <;>
    simp_all [pySubPercent, List.count_cons]

theorem count_pct_pySubPercent (s : List Char) :
    (pySubPercent s).count '%' + countDoubledPercents s = s.count '%' := by
  induction s using pySubPercent.induct <;>
    simp_all [pySubPercent, countDoubledPercents, List.count_cons] <;> omega

/-! ## Identifier quoting (`DatabaseOperations.quote_name`, lines 248-252) -/

/-- The backquote character used by `quote_name`. -/
def backquote : Char := Char.ofNat 96

/-- `quote_name`: if the name starts and ends with a backquote it is
returned unchanged, otherwise it is wrapped in backquotes. -/
def quote_name (name : List Char) : List Char :=
  if name.head? = some backquote ∧ name.getLast? = some backquote then name
  else backquote :: (name ++ [backquote])

/-! ## Boolean inbound conversion
(`DatabaseOperations.convert_booleanfield_value`, lines 379-382) -/

/-- Python `bool` applied to an integer. -/
def pyBool (n : Int) : Bool := n != 0

/-- `convert_booleanfield_value`: a driver value that is 0 or 1 becomes a
Python boolean, every other value (another integer, or None) is returned
unchanged.  The result is None, a boolean (`Sum.inl`) or the original
integer (`Sum.inr`). -/
def convert_booleanfield_value : Option Int → Option (Bool ⊕ Int)
  | none => none
  | some v => if v = 0 ∨ v = 1 then some (Sum.inl (pyBool v)) else some (Sum.inr v)

/-! ## last_insert_id (`DatabaseOperations.last_insert_id`, lines 258-271)

The cursor interaction (`SELECT LAST_INSERT_ID()` followed by a fetch) is
external; the embedding takes the fetched numeric value directly.  The
driver reports it as a Decimal; the function converts it to a plain int
when it is strictly below `sys.maxsize`. -/

/-- A Python numeric value as fetched from the driver: either a plain int
or an integral Decimal (the wider numeric type). -/
inductive PyNumeric where
  | int (n : Int)
  | decimal (n : Int)
deriving DecidableEq, Repr

/-- The numeric value carried by a `PyNumeric`; `int()` applied to an
integral Decimal yields exactly this value. -/
def PyNumeric.toInt : PyNumeric → Int
  | .int n => n
  | .decimal n => n

/-- `sys.maxsize` on a 64-bit platform. -/
def sys_maxsize : Int := 9223372036854775807

/-- `last_insert_id` applied to the value fetched by the
`SELECT LAST_INSERT_ID()` query. -/
def last_insert_id (fetched : PyNumeric) : PyNumeric :=
  if fetched.toInt < sys_maxsize then .int fetched.toInt else fetched

/-! ## Date truncation (`DatabaseOperations.date_trunc_sql`, lines 176-195)

The Python code builds a format string from two tuples indexed by the
position of `lookup_type` in a unit list; `fields.index` raising
`ValueError` (unit not in the list) makes the function return the field
name unchanged.  Note the source spells the finest unit `milisecond`. -/

def truncFields : List String :=
  ["year", "month", "day", "hour", "minute", "second", "milisecond"]

def truncFormat : List String :=
  ["%%Y-", "%%m", "-%%d", " %%H:", "%%i", ":%%s", ".%%ms"]

def truncFormatDef : List String :=
  ["0000-", "01", "-01", " 00:", "00", ":00", ".00"]

/-- `date_trunc_sql`:  unknown lookup types fall back to the field name,
known ones produce a CAST(DATE_FORMAT(...) AS DATETIME) expression whose
format keeps the components down to the unit and replaces the finer ones
by their default text. -/
def date_trunc_sql (lookup_type field_name : String) : String :=
  match truncFields.indexOf? lookup_type with
  | none => field_name
  | some idx =>
      let i := idx + 1
      let format_str := String.join (truncFormat.take i ++ truncFormatDef.drop i)
      "CAST(DATE_FORMAT(" ++ field_name ++ ", '" ++ format_str ++ "') AS DATETIME)"

/-! `DatabaseOperations.datetime_trunc_sql`, lines 209-225: an independent
copy of the same tables and logic (the `USE_TZ` check only emits a warning
and does not affect the returned string, so it is not part of the string
function modelled here). -/

def dtTruncFields : List String :=
  ["year", "month", "day", "hour", "minute", "second", "milisecond"]

def dtTruncFormat : List String :=
  ["%%Y-", "%%m", "-%%d", " %%H:", "%%i", ":%%s", ".%%ms"]

def dtTruncFormatDef : List String :=
  ["0000-", "01", "-01", " 00:", "00", ":00", ".00"]

/-- `datetime_trunc_sql`; the timezone name argument is unused by the
string computation. -/
def datetime_trunc_sql (lookup_type field_name _tzname : String) : String :=
  match dtTruncFields.indexOf? lookup_type with
  | none => field_name
  | some idx =>
      let i := idx + 1
      let format_str := String.join (dtTruncFormat.take i ++ dtTruncFormatDef.drop i)
      "CAST(DATE_FORMAT(" ++ field_name ++ ", '" ++ format_str ++ "') AS DATETIME)"

/-! ## Python exceptions and results -/

/-- The Python exceptions the modelled code can raise. -/
inductive PyErr where
  | valueError (msg : String)
  | attributeError (msg : String)
deriving DecidableEq, Repr

/-- Result of running a piece of Python code: a value, or a raised
exception. -/
inductive PyResult (α : Type) where
  | ok (val : α)
  | exc (err : PyErr)
deriving DecidableEq, Repr

/-! ## Outbound datetime conversion
(`DatabaseOperations.value_to_db_datetime`, lines 297-308) -/

/-- A Python `datetime` value: its naive wall-clock reading (in abstract
units) together with its UTC offset when it is timezone-aware
(`utcoffset = none` models a naive datetime, which is exactly what
`django.utils.timezone.is_aware` tests). -/
structure PyDatetime where
  naive : Int
  utcoffset : Option Int
deriving DecidableEq, Repr

/-- `str` (py2 `unicode`) on a datetime: the naive reading, followed by an
offset marker only when the value is timezone-aware. -/
def pyDatetimeStr (d : PyDatetime) : String :=
  match d.utcoffset with
  | none => toString d.naive
  | some off => toString d.naive ++ "+" ++ toString off

/-- `value_to_db_datetime` with the ambient `settings.USE_TZ` flag passed
explicitly.  `value.astimezone(timezone.utc).replace(tzinfo=None)` turns an
aware value of offset `off` into the naive value `naive - off`. -/
def value_to_db_datetime (useTz : Bool) :
    Option PyDatetime → PyResult (Option String)
  | none => .ok none
  | some value =>
      match value.utcoffset with
      | some off =>
          if useTz then
            .ok (some (pyDatetimeStr { naive := value.naive - off, utcoffset := none }))
          else
            .exc (.valueError
              "CUBRID does not support timezone-aware datetime when USE_TZ is False.")
      | none => .ok (some (pyDatetimeStr value))

/-! ## Binary inbound conversion
(`DatabaseOperations.convert_binaryfield_value`, lines 364-372) -/

/-- Left-to-right effect of consuming a generator of Python results, as
`bytes(gen_bytes())` does: the first raised exception propagates. -/
def pyResultsMapM (f : α → PyResult β) : List α → PyResult (List β)
  | [] => .ok []
  | a :: rest =>
      match f a with
      | .exc e => .exc e
      | .ok b =>
          match pyResultsMapM f rest with
          | .exc e => .exc e
          | .ok bs => .ok (b :: bs)

/-- Python `int(s, 2)`: parses a non-empty string of binary digits,
raising ValueError otherwise. -/
def pyIntBase2 (l : List Char) : PyResult Nat :=
  if l.isEmpty || !(l.all fun c => c == '0' || c == '1') then
    .exc (.valueError "invalid literal for int() with base 2")
  else
    .ok (l.foldl (fun a c => 2 * a + (if c == '1' then 1 else 0)) 0)

/-- The chunking performed by `range(0, len(value), 8)` with slicing:
successive groups of 8 characters, the last group possibly shorter. -/
def chunks8 (l : List Char) : List (List Char) :=
  if h : l = [] then [] else l.take 8 :: chunks8 (l.drop 8)
termination_by l.length
decreasing_by
  simp only [List.length_drop]
  exact Nat.sub_lt (List.length_pos.mpr h) (by norm_num)

/-- `convert_binaryfield_value`: the value (when not None) must start with
the marker 0B; the remaining characters are grouped by eights and each
group parsed as a base-2 byte.  A None value hits `value.startswith`
unprotected and raises AttributeError. -/
def convert_binaryfield_value : Option (List Char) → PyResult (List Nat)
  | none => .exc (.attributeError "NoneType has no attribute startswith")
  | some value =>
      if value.take 2 = ['0', 'B'] then
        pyResultsMapM pyIntBase2 (chunks8 (value.drop 2))
      else
        .exc (.valueError ("Unexpected value: " ++ String.mk value))

/-- The binary literal encoding of one byte: its 8-bit big-endian
rendering. -/
def byteToBits (b : Nat) : List Char :=
  (List.range 8).map fun i => if b.testBit (7 - i) then '1' else '0'

/-- The binary literal form of a byte sequence: the marker 0B followed by
the 8-bit big-endian rendering of each byte. -/
def encodeBytes (bs : List Nat) : List Char :=
  '0' :: 'B' :: (bs.map byteToBits).flatten

/-! ## Text, datetime and UUID inbound conversions (lines 374-392) -/

/-- `django.utils.encoding.force_text` on a value that is already text is
the identity (it only decodes byte strings). -/
def force_text (s : String) : String := s

/-- `convert_textfield_value`: None passes through, other values are
normalized with `force_text`. -/
def convert_textfield_value : Option String → Option String
  | none => none
  | some v => some (force_text v)

/-- `django.utils.timezone.make_aware(value, tz)`: attaches the timezone
to a naive datetime, keeping the wall-clock reading; raises ValueError on
an already-aware value. -/
def make_aware (value : PyDatetime) (tz : Int) : PyResult PyDatetime :=
  if value.utcoffset = none then .ok { value with utcoffset := some tz }
  else .exc (.valueError "make_aware expects a naive datetime")

/-- `convert_datetimefield_value` with the connection timezone passed
explicitly: None passes through, a naive value becomes aware in the
connection timezone. -/
def convert_datetimefield_value (tz : Int) :
    Option PyDatetime → PyResult (Option PyDatetime)
  | none => .ok none
  | some v =>
      match make_aware v tz with
      | .ok w => .ok (some w)
      | .exc e => .exc e

/-- Opening and closing curly brace characters (stripped by the UUID
constructor). -/
def leftBrace : Char := Char.ofNat 123

def rightBrace : Char := Char.ofNat 125

/-- The value of a hexadecimal digit, if the character is one. -/
def hexDigitVal (c : Char) : Option Nat :=
  if '0' ≤ c ∧ c ≤ '9' then some (c.toNat - '0'.toNat)
  else if 'a' ≤ c ∧ c ≤ 'f' then some (c.toNat - 'a'.toNat + 10)
  else if 'A' ≤ c ∧ c ≤ 'F' then some (c.toNat - 'A'.toNat + 10)
  else none

/-- Python `int(s, 16)` on a plain digit string: parses a non-empty string
of hexadecimal digits, raising ValueError otherwise. -/
def pyIntBase16 (l : List Char) : PyResult Nat :=
  if l.isEmpty || !(l.all fun c => (hexDigitVal c).isSome) then
    .exc (.valueError "invalid literal for int() with base 16")
  else
    .ok (l.foldl (fun a c => 16 * a + ((hexDigitVal c).getD 0)) 0)

/-- `str.strip` of the two brace characters from both ends. -/
def stripBraces (s : List Char) : List Char :=
  ((s.dropWhile fun c => c == leftBrace || c == rightBrace).reverse.dropWhile
    fun c => c == leftBrace || c == rightBrace).reverse

/-- `uuid.UUID(value)` on the canonical textual forms (braces stripped,
hyphens removed, exactly 32 hexadecimal digits required; the urn-prefixed
form is not modelled).  The result is the 128-bit value. -/
def pyUUID (s : List Char) : PyResult Nat :=
  let hex := (stripBraces s).filter fun c => c ≠ '-'
  if hex.length = 32 then pyIntBase16 hex
  else .exc (.valueError "badly formed hexadecimal UUID string")

/-- `convert_uuidfield_value`: None passes through, other values are
parsed with the UUID constructor. -/
def convert_uuidfield_value : Option (List Char) → PyResult (Option Nat)
  | none => .ok none
  | some v =>
      match pyUUID v with
      | .ok n => .ok (some n)
      | .exc e => .exc e

/-! ## Exception translation (`raise_django_exception`, lines 44-48) -/

/-- The exception classes available as attributes of `django.db.utils`
(the standard DB-API 2.0 hierarchy re-exported by the framework). -/
inductive DjangoExc where
  | Error
  | InterfaceError
  | DatabaseError
  | DataError
  | OperationalError
  | IntegrityError
  | InternalError
  | ProgrammingError
  | NotSupportedError
deriving DecidableEq, Repr

/-- The `__name__` of each framework exception class. -/
def djangoExcName : DjangoExc → String
  | .Error => "Error"
  | .InterfaceError => "InterfaceError"
  | .DatabaseError => "DatabaseError"
  | .DataError => "DataError"
  | .OperationalError => "OperationalError"
  | .IntegrityError => "IntegrityError"
  | .InternalError => "InternalError"
  | .ProgrammingError => "ProgrammingError"
  | .NotSupportedError => "NotSupportedError"

/-- All framework exception classes, in a fixed order. -/
def djangoExcAll : List DjangoExc :=
  [.Error, .InterfaceError, .DatabaseError, .DataError, .OperationalError,
   .IntegrityError, .InternalError, .ProgrammingError, .NotSupportedError]

/-- `getattr(django.db.utils, name, None)` restricted to the exception
classes: the class of that name, when one exists. -/
def djangoDbUtilsAttr (name : String) : Option DjangoExc :=
  djangoExcAll.find? fun k => djangoExcName k = name

/-- A native driver exception: the name of its type, and its positional
arguments. -/
structure CubridError where
  typeName : String
  args : List String
deriving DecidableEq, Repr

/-- The exception `raise_django_exception` raises: a framework exception
class applied to positional arguments. -/
structure RaisedExc where
  kind : DjangoExc
  args : List String
deriving DecidableEq, Repr

/-- `raise_django_exception`: look the native type name up among the
framework exception classes, fall back to the generic `Error`, and raise
with the original positional arguments.  The function always raises, so
its embedding totally returns the raised exception. -/
def raise_django_exception (e : CubridError) : RaisedExc :=
  { kind := (djangoDbUtilsAttr e.typeName).getD .Error, args := e.args }

/-! ## Claim theorems (first group) -/

/-- C1 (counterexample): a host marker at the very start of the template is
not replaced by the rewrite: `cursorRewrite` leaves the template consisting
of exactly one marker unchanged, so the output contains no native marker
although the input contains one unescaped host marker. -/
theorem cursorRewrite_start_marker_kept :
    cursorRewrite ['%', 's'] = ['%', 's'] ∧
    (cursorRewrite ['%', 's']).count '?' = 0 := by decide

/-- C1 (amended): the rewrite performed by `CursorWrapper.execute` replaces
host markers by the native marker count-for-count, where the markers
replaced are exactly the occurrences of percent-s immediately preceded by a
non-percent character not consumed by the previous replacement (a marker at
the very start of the template, or directly after a replaced marker, is
left unchanged); and the percent-collapsing pass removes exactly one
percent character per doubled-percent pair. -/
theorem cursorRewrite_marker_count (s : List Char) :
    (cursorRewrite s).count '?' = s.count '?' + countUnescapedMarkers s ∧
    (pySubPercent s).count '%' + countDoubledPercents s = s.count '%' := by
  constructor
  · rw [cursorRewrite, count_qmark_pySubPercent, count_qmark_pySubMarker]
  · exact count_pct_pySubPercent s

/-- C7: `quote_name` is idempotent, and an identifier already carrying the
quote character at both ends is returned unchanged. -/
theorem quote_name_idempotent (n : List Char) :
    quote_name (quote_name n) = quote_name n ∧
    (n.head? = some backquote → n.getLast? = some backquote →
      quote_name n = n) := by
  constructor
  · by_cases h : n.head? = some backquote ∧ n.getLast? = some backquote
    · simp [quote_name, h]
    · have h1 : quote_name n = backquote :: (n ++ [backquote]) := by
        simp [quote_name, h]
      have hh : (backquote :: (n ++ [backquote])).head? = some backquote := rfl
      have hl : (backquote :: (n ++ [backquote])).getLast? = some backquote := by
        rw [show backquote :: (n ++ [backquote]) =
          (backquote :: n) ++ [backquote] from rfl]
        exact List.getLast?_concat _
      rw [h1]
      simp [quote_name, hh, hl]
  · intro h1 h2
    simp [quote_name, h1, h2]

/-- C7 witness: idempotence and already-quoted detection at concrete inputs. -/
theorem quote_name_idempotent_witness :
    quote_name (quote_name ['a']) = quote_name ['a'] ∧
    quote_name [backquote, 'a', backquote] = [backquote, 'a', backquote] :=
  ⟨(quote_name_idempotent ['a']).1,
   (quote_name_idempotent [backquote, 'a', backquote]).2 rfl rfl⟩

/-- C8: the boolean inbound conversion maps 0 to false, 1 to true, returns
every other integer unchanged and returns None unchanged. -/
theorem convert_booleanfield_spec (n : Int) (h0 : n ≠ 0) (h1 : n ≠ 1) :
    convert_booleanfield_value (some 0) = some (Sum.inl false) ∧
    convert_booleanfield_value (some 1) = some (Sum.inl true) ∧
    convert_booleanfield_value (some n) = some (Sum.inr n) ∧
    convert_booleanfield_value none = none := by
  refine ⟨by decide, by decide, ?_, rfl⟩
  simp [convert_booleanfield_value, h0, h1]

/-- C8 witness: the conversion at the concrete non-boolean integer 5. -/
theorem convert_booleanfield_spec_witness :
    convert_booleanfield_value (some 5) = some (Sum.inr 5) :=
  (convert_booleanfield_spec 5 (by decide) (by decide)).2.2.1

/-- C9: `last_insert_id` returns the plain integer when the fetched value
is strictly below `sys.maxsize`, and the fetched value itself, unmodified
in its wider numeric type, otherwise. -/
theorem last_insert_id_spec (r : PyNumeric) :
    (r.toInt < sys_maxsize → last_insert_id r = .int r.toInt) ∧
    (¬ r.toInt < sys_maxsize → last_insert_id r = r) := by
  constructor <;> intro h <;> simp [last_insert_id, h]

/-- C9 witness: a small Decimal is converted to a plain int, a Decimal at
`sys.maxsize` comes back unchanged as a Decimal. -/
theorem last_insert_id_spec_witness :
    last_insert_id (.decimal 7) = .int 7 ∧
    last_insert_id (.decimal sys_maxsize) = .decimal sys_maxsize :=
  ⟨(last_insert_id_spec (.decimal 7)).1 (by decide),
   (last_insert_id_spec (.decimal sys_maxsize)).2 (by decide)⟩

theorem chunks8_nil : chunks8 [] = [] := by
  unfold chunks8
  rfl

theorem chunks8_of_ne (l : List Char) (h : l ≠ []) :
    chunks8 l = l.take 8 :: chunks8 (l.drop 8) := by
  conv_lhs => unfold chunks8
  simp [h]

theorem byteToBits_length (b : Nat) : (byteToBits b).length = 8 := by
  simp [byteToBits]

theorem chunks8_block (l rest : List Char) (h : l.length = 8) :
    chunks8 (l ++ rest) = l :: chunks8 rest := by
  have hne : l ++ rest ≠ [] := by
    intro he
    have := congrArg List.length he
    simp [h] at this
  rw [chunks8_of_ne _ hne]
  rw [show (8 : Nat) = l.length from h.symm]
  rw [List.take_left, List.drop_left]

theorem chunks8_encoded (bs : List Nat) :
    chunks8 ((bs.map byteToBits).flatten) = bs.map byteToBits := by
  induction bs with
  | nil => simpa using chunks8_nil
  | cons b rest ih =>
      simp only [List.map_cons, List.flatten_cons]
      rw [chunks8_block _ _ (byteToBits_length b), ih]

set_option maxRecDepth 8000 in
theorem pyIntBase2_byteToBits :
    ∀ b ∈ List.range 256, pyIntBase2 (byteToBits b) = .ok b := by decide

theorem pyResultsMapM_byteToBits (bs : List Nat) (h : ∀ b ∈ bs, b < 256) :
    pyResultsMapM pyIntBase2 (bs.map byteToBits) = .ok bs := by
  induction bs with
  | nil => rfl
  | cons b rest ih =>
      have hb : pyIntBase2 (byteToBits b) = .ok b :=
        pyIntBase2_byteToBits b (List.mem_range.mpr (h b (by simp)))
      have hrest := ih fun x hx => h x (by simp [hx])
      simp [pyResultsMapM, hb, hrest]

/-- C4 (counterexample): the binary inbound converter is not tolerant of a
null input: applied to None it raises an AttributeError (the source calls
`value.startswith` without a null check), rather than returning null. -/
theorem convert_binaryfield_null_raises :
    convert_binaryfield_value none =
      .exc (.attributeError "NoneType has no attribute startswith") := rfl

/-- C4 (amended): the text, boolean, timestamp and unique-identifier
inbound converters return null unchanged and raise no error on a null
input; the binary inbound converter does not share this tolerance, raising
an AttributeError on null. -/
theorem inbound_converters_on_null (tz : Int) :
    convert_textfield_value none = none ∧
    convert_booleanfield_value none = none ∧
    convert_datetimefield_value tz none = .ok none ∧
    convert_uuidfield_value none = .ok none ∧
    (∃ msg, convert_binaryfield_value none = .exc (.attributeError msg)) :=
  ⟨rfl, rfl, rfl, rfl, ⟨"NoneType has no attribute startswith", rfl⟩⟩

/-- C5 (counterexample): a remaining bit-string whose length is not a
multiple of 8 is not an error condition: after the marker, the four
characters 1111 decode without error to the single byte 15. -/
theorem convert_binaryfield_short_group :
    convert_binaryfield_value (some ['0', 'B', '1', '1', '1', '1']) =
      .ok [15] := by
  have h1 : chunks8 ['1', '1', '1', '1'] = [['1', '1', '1', '1']] := by
    rw [chunks8_of_ne _ (by simp)]
    simp [chunks8_nil]
  have h2 : convert_binaryfield_value (some ['0', 'B', '1', '1', '1', '1']) =
      pyResultsMapM pyIntBase2 (chunks8 ['1', '1', '1', '1']) := rfl
  rw [h2, h1]
  rfl

/-- C5 (amended): decoding the binary literal formed by the marker 0B and
the 8-bit big-endian rendering of each byte yields exactly the original
byte sequence (for every byte sequence, including the empty one and
sequences of 255-bytes), and an input not starting with the marker is
rejected with a ValueError; a remaining bit-string whose length is not a
multiple of 8 is not an error: its trailing short group decodes as one
additional byte (see the counterexample). -/
theorem convert_binaryfield_spec :
    (∀ bs : List Nat, (∀ b ∈ bs, b < 256) →
        convert_binaryfield_value (some (encodeBytes bs)) = .ok bs) ∧
    (∀ v : List Char, v.take 2 ≠ ['0', 'B'] →
        ∃ msg, convert_binaryfield_value (some v) = .exc (.valueError msg)) := by
  constructor
  · intro bs h
    have h1 : convert_binaryfield_value (some (encodeBytes bs)) =
        pyResultsMapM pyIntBase2 (chunks8 ((bs.map byteToBits).flatten)) := rfl
    rw [h1, chunks8_encoded, pyResultsMapM_byteToBits bs h]
  · intro v hv
    refine ⟨"Unexpected value: " ++ String.mk v, ?_⟩
    simp [convert_binaryfield_value, hv]

/-- C5 witness: round-trip at the one-byte sequence 255 and at the empty
sequence, and rejection of an input missing the marker. -/
theorem convert_binaryfield_spec_witness :
    convert_binaryfield_value (some (encodeBytes [255])) = .ok [255] ∧
    convert_binaryfield_value (some (encodeBytes [])) = .ok [] ∧
    (∃ msg, convert_binaryfield_value (some ['x']) = .exc (.valueError msg)) :=
  ⟨convert_binaryfield_spec.1 [255] (by decide),
   convert_binaryfield_spec.1 [] (by simp),
   convert_binaryfield_spec.2 ['x'] (by decide)⟩

theorem djangoDbUtilsAttr_name (k : DjangoExc) :
    djangoDbUtilsAttr (djangoExcName k) = some k := by
  cases k <;> rfl

/-- C6: the exception translator raises the framework exception class
whose name equals the native exception type name when one exists, the
generic Error class otherwise, always preserving the original positional
arguments verbatim (the embedding is total: no exception is swallowed). -/
theorem raise_django_exception_spec (e : CubridError) :
    (raise_django_exception e).args = e.args ∧
    (∀ k, djangoExcName k = e.typeName → (raise_django_exception e).kind = k) ∧
    ((∀ k, djangoExcName k ≠ e.typeName) →
      (raise_django_exception e).kind = .Error) := by
  refine ⟨rfl, ?_, ?_⟩
  · intro k hk
    show (djangoDbUtilsAttr e.typeName).getD .Error = k
    rw [← hk, djangoDbUtilsAttr_name]
    rfl
  · intro h
    have hnone : djangoDbUtilsAttr e.typeName = none := by
      rw [djangoDbUtilsAttr, List.find?_eq_none]
      intro k _
      simpa using h k
    simp [raise_django_exception, hnone]

/-- C6 witness: a native IntegrityError maps to the class of the same
name with its argument preserved; an unknown native type name maps to the
generic Error class. -/
theorem raise_django_exception_spec_witness :
    (raise_django_exception ⟨"IntegrityError", ["boom"]⟩).args = ["boom"] ∧
    (raise_django_exception ⟨"IntegrityError", ["boom"]⟩).kind =
      .IntegrityError ∧
    (raise_django_exception ⟨"CUBRIDError", []⟩).kind = .Error :=
  ⟨(raise_django_exception_spec ⟨"IntegrityError", ["boom"]⟩).1,
   (raise_django_exception_spec ⟨"IntegrityError", ["boom"]⟩).2.1
     .IntegrityError rfl,
   (raise_django_exception_spec ⟨"CUBRIDError", []⟩).2.2
     (by intro k; cases k <;> decide)⟩

/-- C2: evaluation of `date_trunc_sql` at the failing input.  The unit
list of the source spells the finest unit `milisecond`, so the unit
`millisecond` (which the claim, and the intent of the code, place inside
the supported set) falls into the unknown-unit fallback and the field name
comes back unchanged, while the misspelt string produces the truncation
expression; the `month` case shows the format the claim describes. -/
theorem date_trunc_sql_millisecond_fallback :
    date_trunc_sql "millisecond" "col" = "col" ∧
    date_trunc_sql "milisecond" "col" =
      "CAST(DATE_FORMAT(col, '%%Y-%%m-%%d %%H:%%i:%%s.%%ms') AS DATETIME)" ∧
    date_trunc_sql "month" "col" =
      "CAST(DATE_FORMAT(col, '%%Y-%%m-01 00:00:00.00') AS DATETIME)" := by
  refine ⟨rfl, rfl, rfl⟩

/-- C10: `date_trunc_sql` and `datetime_trunc_sql` agree as string
functions on every lookup type and field name, for every timezone name
(the timezone warning is a side effect with no influence on the string). -/
theorem trunc_sql_implementations_agree
    (lookup_type field_name tzname : String) :
    date_trunc_sql lookup_type field_name =
      datetime_trunc_sql lookup_type field_name tzname := rfl

/-- C3: outbound datetime conversion is null-preserving; a timezone-aware
value is converted, when `USE_TZ` holds, to the plain textual literal of
its UTC reading with the offset stripped (no offset marker follows the
naive reading), and is rejected with a ValueError when `USE_TZ` is off. -/
theorem value_to_db_datetime_spec (v : PyDatetime) (off : Int)
    (haware : v.utcoffset = some off) :
    value_to_db_datetime true none = .ok none ∧
    value_to_db_datetime false none = .ok none ∧
    value_to_db_datetime true (some v) = .ok (some (toString (v.naive - off))) ∧
    (∃ msg, value_to_db_datetime false (some v) = .exc (.valueError msg)) := by
  refine ⟨rfl, rfl, ?_, ?_⟩
  · simp [value_to_db_datetime, haware, pyDatetimeStr]
  · exact ⟨"CUBRID does not support timezone-aware datetime when USE_TZ is False.",
      by simp [value_to_db_datetime, haware]⟩

/-- C3 witness: an aware datetime of reading 100 and offset 60, under both
settings of the timezone flag. -/
theorem value_to_db_datetime_spec_witness :
    value_to_db_datetime true (some ⟨100, some 60⟩) =
      .ok (some (toString ((100 : Int) - 60))) ∧
    (∃ msg, value_to_db_datetime false (some ⟨100, some 60⟩) =
      .exc (.valueError msg)) :=
  ⟨(value_to_db_datetime_spec ⟨100, some 60⟩ 60 rfl).2.2.1,
   (value_to_db_datetime_spec ⟨100, some 60⟩ 60 rfl).2.2.2⟩

end DjangoCubrid
